import Mathlib

/-!
Shallow embedding of the HackTheImpossible frontend core (React + TypeScript +
Mapbox drone map).  The embedding follows the current generation of the
sources: `src/engine/types.ts`, `src/engine/renderEngine.ts`,
`src/engine/worldState.ts`, the layer descriptor modules
(`dronesLayer.ts`, `homeBaseLayer.ts`, `rangeCircleLayer.ts`) and the
ingestion helpers of `src/components/MapView.tsx`.

JavaScript numbers are modelled as `ℚ`.  TypeScript fields that the type
declarations mark required but that the running JavaScript objects can
nevertheless lack (because a producer omits them in an object literal) are
modelled as `Option`; a JavaScript `TypeError` thrown by a property access on
`undefined` is modelled with `Except`.
-/

namespace HackFrontend

/-- Longitude/latitude pair (`LngLat` in `src/engine/types.ts`). -/
abbrev LngLat := ℚ × ℚ

/-- Drone side (`DroneSide` in `src/engine/types.ts`). -/
inductive DroneSide
  | friendly
  | enemy
deriving DecidableEq, Repr

/-- Frontend drone display mode (`DroneMode` in `src/engine/types.ts`):
only the two modes the rendering layer supports. -/
inductive DroneMode
  | PATROL
  | RETURNING
deriving DecidableEq, Repr

/-- Backend mode union (`BackendMode` in `src/components/MapView.tsx`). -/
inductive BackendMode
  | PATROL
  | RETURNING
  | IDLE_AT_BASE
  | TRANSIT_TO_AREA
  | CHARGING
  | LOST
deriving DecidableEq, Repr

/-- Drone entity (`DroneEntity` in `src/engine/types.ts`).  The TypeScript
interface declares `pathParam`, `battery` and `exploration` as required
numbers, but the runtime objects built by `dtoToWorldState` in
`MapView.tsx` can lack them, so the runtime value is modelled with
`Option`: `none` is the absent (JavaScript `undefined`) property. -/
structure DroneEntity where
  id : String
  position : LngLat
  side : DroneSide
  pathParam : Option ℚ
  battery : Option ℚ
  mode : DroneMode
  offset : ℚ
  exploration : Option ℚ
deriving DecidableEq, Repr

/-- Home base (`HomeBase` in `src/engine/types.ts`); `rangeKm` is optional
in the TypeScript declaration as well. -/
structure HomeBase where
  id : String
  position : LngLat
  rangeKm : Option ℚ
deriving DecidableEq, Repr

/-- World state (`WorldState` in `src/engine/types.ts`).  `homeBase` is
declared required in the current `types.ts`, but a legacy producer builds
world values without it and `rangeCircleLayer.ts` guards against its
absence, so the runtime value is modelled as an `Option`. -/
structure WorldState where
  drones : List DroneEntity
  homeBase : Option HomeBase
deriving DecidableEq, Repr

/-- GeoJSON geometry, restricted to the kinds the engine builds. -/
inductive Geometry
  | point (coordinates : LngLat)
  | polygon (ring : List LngLat)
deriving DecidableEq, Repr

/-- GeoJSON feature: a property bag and a geometry. -/
structure Feature where
  properties : List (String × String)
  geometry : Geometry
deriving DecidableEq, Repr

/-- GeoJSON feature collection. -/
structure FeatureCollection where
  features : List Feature
deriving DecidableEq, Repr

/-- The empty feature collection the engine uses as initial source data. -/
def emptyFeatureCollection : FeatureCollection := ⟨[]⟩

/-- Layer geometry kind (`LayerKind` in `src/engine/types.ts`). -/
inductive LayerKind
  | point
  | polygon
deriving DecidableEq, Repr

/-- Layer descriptor (`LayerDescriptor` in `src/engine/types.ts`).  Paint is
an opaque property bag; its values never influence control flow. -/
structure LayerDescriptor where
  id : String
  sourceId : String
  layerId : String
  kind : LayerKind
  minZoom : Option ℚ
  maxZoom : Option ℚ
  visibleByDefault : Option Bool
  dataSelector : WorldState → FeatureCollection
  paint : List (String × String)

/-- A styled Mapbox layer as created by `map.addLayer`. -/
structure MapLayer where
  id : String
  type : String
  source : String
  paint : List (String × String)
  minzoom : Option ℚ
  maxzoom : Option ℚ
deriving DecidableEq, Repr

/-- The mutable drawing surface (the Mapbox map): its GeoJSON sources with
their current data, and its styled layers. -/
structure Surface where
  sources : List (String × FeatureCollection)
  layers : List MapLayer
deriving DecidableEq, Repr

/-- Source lookup (`map.getSource`): first entry with the given id. -/
def lookupSource : List (String × FeatureCollection) → String → Option FeatureCollection
  | [], _ => none
  | p :: rest, sid => if p.1 = sid then some p.2 else lookupSource rest sid

/-- Data push into an existing source (`GeoJSONSource.setData`): replaces
the data of the entries with the given id, creates nothing. -/
def setDataList : List (String × FeatureCollection) → String → FeatureCollection →
    List (String × FeatureCollection)
  | [], _, _ => []
  | p :: rest, sid, fc => (if p.1 = sid then (p.1, fc) else p) :: setDataList rest sid fc

/-- `map.addSource`: registers a new GeoJSON source with initial data. -/
def Surface.addSource (m : Surface) (sid : String) (fc : FeatureCollection) : Surface :=
  { m with sources := m.sources ++ [(sid, fc)] }

/-- `map.addLayer`: registers a new styled layer. -/
def Surface.addLayer (m : Surface) (l : MapLayer) : Surface :=
  { m with layers := m.layers ++ [l] }

/-- `map.getSource` on a surface. -/
def Surface.getSource (m : Surface) (sid : String) : Option FeatureCollection :=
  lookupSource m.sources sid

/-- View context passed to `RenderEngine.update` (`ViewContext` in
`src/engine/renderEngine.ts`): currently just the zoom level. -/
structure ViewContext where
  zoom : ℚ
deriving DecidableEq, Repr

/-- Render engine state (`RenderEngine` in `src/engine/renderEngine.ts`):
the current world, the registered descriptors, and the two id sets that
gate resource creation. -/
structure RenderEngine where
  world : WorldState
  layers : List LayerDescriptor
  initializedSources : List String
  initializedLayers : List String

/-- The `RenderEngine` constructor: stores the map-independent fields with
empty registries. -/
def mkRenderEngine (initialWorld : WorldState) : RenderEngine :=
  { world := initialWorld, layers := [], initializedSources := [], initializedLayers := [] }

/-- `RenderEngine.setWorldState`: replaces the engine world reference. -/
def RenderEngine.setWorldState (e : RenderEngine) (w : WorldState) : RenderEngine :=
  { e with world := w }

/-- Observable drawing-surface calls made by the engine, recorded so that
creation idempotence can be stated as a trace property. -/
inductive SurfEvent
  | addSource (sid : String)
  | addLayer (lid : String)
  | setData (sid : String) (fc : FeatureCollection)
deriving DecidableEq, Repr

/-- The Mapbox layer specification `ensureSourceAndLayer` builds for a
descriptor: a `circle` layer for point kind, a `fill` layer for polygon
kind (`src/engine/renderEngine.ts`). -/
def layerSpecFor (d : LayerDescriptor) : MapLayer :=
  match d.kind with
  | .point => ⟨d.layerId, "circle", d.sourceId, d.paint, d.minZoom, d.maxZoom⟩
  | .polygon => ⟨d.layerId, "fill", d.sourceId, d.paint, d.minZoom, d.maxZoom⟩

/-- `RenderEngine.ensureSourceAndLayer`: creates the GeoJSON source and the
styled layer for a descriptor, each only if its id has not been seen
before, and records the seen ids. -/
def ensureSourceAndLayer (e : RenderEngine) (m : Surface) (d : LayerDescriptor) :
    RenderEngine × Surface × List SurfEvent :=
  let step1 : RenderEngine × Surface × List SurfEvent :=
    if d.sourceId ∈ e.initializedSources then (e, m, [])
    else ({ e with initializedSources := d.sourceId :: e.initializedSources },
          m.addSource d.sourceId emptyFeatureCollection,
          [SurfEvent.addSource d.sourceId])
  if d.layerId ∈ step1.1.initializedLayers then step1
  else ({ step1.1 with initializedLayers := d.layerId :: step1.1.initializedLayers },
        step1.2.1.addLayer (layerSpecFor d),
        step1.2.2 ++ [SurfEvent.addLayer d.layerId])

/-- `RenderEngine.updateLayer`: looks the descriptor source up on the
surface; a missing handle skips the push (early return), otherwise the
feature collection derived from the current world is pushed.  The view
argument is accepted and ignored, exactly as in the source. -/
def updateLayer (w : WorldState) (m : Surface) (d : LayerDescriptor)
    (_view : ViewContext) : Surface × List SurfEvent :=
  match lookupSource m.sources d.sourceId with
  | none => (m, [])
  | some _ =>
    let fc := d.dataSelector w
    ({ m with sources := setDataList m.sources d.sourceId fc },
     [SurfEvent.setData d.sourceId fc])

/-- The loop body of `RenderEngine.update`: updates each registered
descriptor in registration order. -/
def updatePass (w : WorldState) (v : ViewContext) :
    List LayerDescriptor → Surface → Surface × List SurfEvent
  | [], m => (m, [])
  | d :: ds, m =>
    let r := updateLayer w m d v
    let rest := updatePass w v ds r.1
    (rest.1, r.2 ++ rest.2)

/-- `RenderEngine.update`: one render tick over all registered layers.  The
engine fields themselves are not modified by `update`. -/
def RenderEngine.update (e : RenderEngine) (m : Surface) (v : ViewContext) :
    Surface × List SurfEvent :=
  updatePass e.world v e.layers m

/-- `RenderEngine.registerLayer`: appends the descriptor, ensures its
surface resources and immediately performs one data push.  The view passed
to the push is the current map zoom; it is ignored by `updateLayer`, so it
is modelled by an arbitrary constant. -/
def RenderEngine.registerLayer (e : RenderEngine) (m : Surface) (d : LayerDescriptor) :
    RenderEngine × Surface × List SurfEvent :=
  let e0 := { e with layers := e.layers ++ [d] }
  let r1 := ensureSourceAndLayer e0 m d
  let r2 := updateLayer r1.1.world r1.2.1 d ⟨0⟩
  (r1.1, r2.1, r1.2.2 ++ r2.2)

/-- One engine-facing command: the public calls of the engine, plus an
environment step that replaces the drawing surface (modelling external
teardown of sources out from under the engine). -/
inductive EngineCmd
  | register (d : LayerDescriptor)
  | setWorld (w : WorldState)
  | update (v : ViewContext)
  | external (m : Surface)

/-- Run one command against an engine and surface, collecting the
drawing-surface calls it makes. -/
def runCmd (e : RenderEngine) (m : Surface) :
    EngineCmd → RenderEngine × Surface × List SurfEvent
  | .register d => e.registerLayer m d
  | .setWorld w => (e.setWorldState w, m, [])
  | .update v =>
    let r := e.update m v
    (e, r.1, r.2)
  | .external m2 => (e, m2, [])

/-- Run a command sequence, concatenating the emitted surface calls. -/
def runCmds (e : RenderEngine) (m : Surface) :
    List EngineCmd → RenderEngine × Surface × List SurfEvent
  | [] => (e, m, [])
  | c :: cs =>
    let r1 := runCmd e m c
    let r2 := runCmds r1.1 r1.2.1 cs
    (r2.1, r2.2.1, r1.2.2 ++ r2.2.2)

/-- Render of a drone side as the string stored in feature properties. -/
def sideToString : DroneSide → String
  | .friendly => "friendly"
  | .enemy => "enemy"

/-- The drones layer descriptor (`src/engine/dronesLayer.ts`): one point
feature per drone, carrying its id and side. -/
def createDronesLayerDescriptor : LayerDescriptor :=
  { id := "drones"
    sourceId := "drones-source"
    layerId := "drones-layer"
    kind := .point
    minZoom := some 3
    maxZoom := some 22
    visibleByDefault := some true
    dataSelector := fun world =>
      ⟨world.drones.map (fun drone =>
        { properties := [("id", drone.id), ("side", sideToString drone.side)]
          geometry := .point drone.position })⟩
    paint := [("circle-radius", "4"),
              ("circle-color", "match get side | friendly #FF5C00 | enemy #ff4b4b | default #ffffff"),
              ("circle-stroke-color", "#ffffff"),
              ("circle-stroke-width", "1")] }

/-- The home base layer descriptor (`src/engine/homeBaseLayer.ts`): empty
collection without a home base, otherwise one point feature at the base. -/
def createHomeBaseLayerDescriptor : LayerDescriptor :=
  { id := "home-base"
    sourceId := "home-base-source"
    layerId := "home-base-layer"
    kind := .point
    minZoom := some 3
    maxZoom := some 22
    visibleByDefault := some true
    dataSelector := fun world =>
      match world.homeBase with
      | none => ⟨[]⟩
      | some hb => ⟨[{ properties := [("kind", "home-base")], geometry := .point hb.position }]⟩
    paint := [("circle-radius", "10"),
              ("circle-color", "#00ffc4"),
              ("circle-stroke-color", "#ffffff"),
              ("circle-stroke-width", "2"),
              ("circle-opacity", "0.9")] }

/-- The range circle layer descriptor (`src/engine/rangeCircleLayer.ts`).
`turf.circle` belongs to an external library, so the descriptor is
parametric in it: `circleFn center radiusKm steps` stands for the polygon
feature of `turf.circle` at that center, radius in kilometers, and steps.
The selector matches the source: empty collection without a home base,
otherwise the single circle feature at the base with radius
`rangeKm ?? 10` and 128 steps. -/
def createRangeCircleLayerDescriptor (circleFn : LngLat → ℚ → ℕ → Feature) : LayerDescriptor :=
  { id := "home-base-range"
    sourceId := "home-base-range-source"
    layerId := "home-base-range-layer"
    kind := .polygon
    minZoom := some 3
    maxZoom := some 22
    visibleByDefault := some true
    dataSelector := fun world =>
      match world.homeBase with
      | none => ⟨[]⟩
      | some hb => ⟨[circleFn hb.position (hb.rangeKm.getD 10) 128]⟩
    paint := [("fill-color", "#00ffc4"), ("fill-opacity", "0.1")] }

/-- The demo base position (`src/engine/worldState.ts`, same constant as
KYIV_BASE): longitude 36.3694, latitude 47.5931. -/
def kyivBase : LngLat := (363694/10000, 475931/10000)

/-- Drone factory of `src/engine/worldState.ts`: full battery, PATROL mode,
zero offset and zero exploration. -/
def makeDrone (id : ℕ) (position : LngLat) (side : DroneSide) (pathParam : ℚ) : DroneEntity :=
  { id := "drone-" ++ toString id
    position := position
    side := side
    pathParam := some pathParam
    battery := some 1
    mode := .PATROL
    offset := 0
    exploration := some 0 }

/-- `createInitialWorldState` of `src/engine/worldState.ts`.  The two
`Math.random()` draws per drone are modelled by the injected stream
`rand`: drone `i` consumes `rand (2*i)` and `rand (2*i+1)`. -/
def createInitialWorldState (rand : ℕ → ℚ) : WorldState :=
  let base := kyivBase
  let count : ℕ := 20
  { drones := (List.range count).map (fun i =>
      let offsetLng := (rand (2*i) - 1/2) * (1/100)
      let offsetLat := (rand (2*i+1) - 1/2) * (1/100)
      makeDrone i (base.1 + offsetLng, base.2 + offsetLat)
        (if i % 2 = 0 then .friendly else .enemy)
        ((i : ℚ) / (count : ℚ)))
    homeBase := some { id := "base-1", position := base, rangeKm := some 10 } }

/-- Raw drone DTO (`DroneDTO` in `src/components/MapView.tsx`).  The DTO
mirrors the backend JSON; since `res.json()` is only cast, any field can be
absent at runtime, which the scalar and object fields model with `Option`. -/
structure DroneDTO where
  id : String
  side : DroneSide
  path_param : Option ℚ
  battery : Option ℚ
  mode : Option BackendMode
  position : Option LngLat
deriving DecidableEq, Repr

/-- Raw home base DTO (`HomeBaseDTO` in `src/components/MapView.tsx`). -/
structure HomeBaseDTO where
  id : String
  position : Option LngLat
deriving DecidableEq, Repr

/-- Raw world state DTO (`WorldStateDTO` in `src/components/MapView.tsx`);
the events array is consumed outside `dtoToWorldState` and not modelled. -/
structure WorldStateDTO where
  drones : List DroneDTO
  home_base : Option HomeBaseDTO
deriving DecidableEq, Repr

/-- `mapMode` of `src/components/MapView.tsx`: PATROL and RETURNING are
kept, every other backend phase is collapsed to PATROL for display. -/
def mapMode : BackendMode → DroneMode
  | .PATROL => .PATROL
  | .RETURNING => .RETURNING
  | _ => .PATROL

/-- `mapMode` applied to a possibly absent runtime value: an `undefined`
mode fails both equality tests in the source and falls through to the
PATROL default. -/
def mapModeRaw : Option BackendMode → DroneMode
  | some m => mapMode m
  | none => .PATROL

/-- One drone of the `dto.drones.map` body inside `dtoToWorldState`
(`src/components/MapView.tsx`).  Reading `d.position.lng` of an absent
position throws a `TypeError`; absent scalar fields are copied as absent.
The object literal sets `offset: 0` but does not set `exploration`,
although `DroneEntity` declares it required. -/
def droneFromDTO (d : DroneDTO) : Except String DroneEntity :=
  match d.position with
  | none => Except.error "TypeError: cannot read lng of undefined"
  | some p => Except.ok
      { id := d.id
        side := d.side
        pathParam := d.path_param
        battery := d.battery
        mode := mapModeRaw d.mode
        position := (p.1, p.2)
        offset := 0
        exploration := none }

/-- `dtoToWorldState` of `src/components/MapView.tsx`: maps the drone DTOs
in order, then builds the home base from `dto.home_base`; reading a field
of an absent `home_base` or of its absent `position` throws.  The built
home base object has no `rangeKm` property. -/
def dtoToWorldState (dto : WorldStateDTO) : Except String WorldState :=
  match dto.drones.mapM droneFromDTO with
  | Except.error err => Except.error err
  | Except.ok drones =>
    match dto.home_base with
    | none => Except.error "TypeError: cannot read id of undefined"
    | some hb =>
      match hb.position with
      | none => Except.error "TypeError: cannot read lng of undefined"
      | some p => Except.ok
          { drones := drones
            homeBase := some { id := hb.id, position := (p.1, p.2), rangeKm := none } }

/-- Modelled from the spec: the Formation Simulation (spec section 4.2) is
not part of the sources under `src/` (only its frontend consumers are), so
the formation spacing rule of step 4 is modelled from the specification
words: for `n` currently-active drones and leader parameter `L`, the drone
at 0-based position `idx` is assigned the fractional parameter
`(L + idx / n) mod 1`, where `mod 1` is the cyclic normalization into
`[0, 1)` (`Int.fract`). -/
def formationParam (L : ℚ) (n : ℕ) (idx : ℕ) : ℚ :=
  Int.fract (L + (idx : ℚ) / (n : ℚ))

/-- Modelled from the spec: assignment loop of the formation spacing step,
walking the active drone list in its current order and writing each drone
parameter. -/
def assignFormationAux (L : ℚ) (n : ℕ) : ℕ → List DroneEntity → List DroneEntity
  | _, [] => []
  | idx, d :: ds =>
    { d with pathParam := some (formationParam L n idx) } :: assignFormationAux L n (idx + 1) ds

/-- Modelled from the spec: formation spacing over the whole active set,
with `n` the active count of this tick. -/
def assignFormation (L : ℚ) (ds : List DroneEntity) : List DroneEntity :=
  assignFormationAux L ds.length 0 ds

theorem lookupSource_setDataList (l : List (String × FeatureCollection)) (sid t : String)
    (fc : FeatureCollection) :
    lookupSource (setDataList l sid fc) t
      = if t = sid then (lookupSource l sid).map (fun _ => fc) else lookupSource l t := by
  induction l with
  | nil => by_cases ht : t = sid <;> simp [setDataList, lookupSource, ht]
  | cons p rest ih =>
    by_cases hp : p.1 = sid
    · by_cases ht : t = sid
      · subst ht; simp [setDataList, lookupSource, hp]
      · have hst : ¬sid = t := fun h => ht h.symm
        simp [setDataList, lookupSource, hp, ht, hst, ih]
    · by_cases ht : t = sid
      · subst ht; simp [setDataList, lookupSource, hp, ih]
      · simp [setDataList, lookupSource, hp, ht, ih]

theorem lookupSource_setDataList_isSome (l : List (String × FeatureCollection)) (sid t : String)
    (fc : FeatureCollection) :
    (lookupSource (setDataList l sid fc) t).isSome = (lookupSource l t).isSome := by
  rw [lookupSource_setDataList]
  by_cases ht : t = sid
  · subst ht; simp
  · simp [ht]

theorem lookupSource_append_self (l : List (String × FeatureCollection)) (sid : String)
    (fc : FeatureCollection) :
    (lookupSource (l ++ [(sid, fc)]) sid).isSome = true := by
  induction l with
  | nil => simp [lookupSource]
  | cons p rest ih => by_cases hp : p.1 = sid <;> simp [lookupSource, hp, ih]

theorem updateLayer_layers (w : WorldState) (m : Surface) (d : LayerDescriptor)
    (v : ViewContext) : (updateLayer w m d v).1.layers = m.layers := by
  unfold updateLayer
  cases h : lookupSource m.sources d.sourceId <;> simp

theorem updateLayer_lookup_isSome (w : WorldState) (m : Surface) (d : LayerDescriptor)
    (v : ViewContext) (sid : String) :
    (lookupSource (updateLayer w m d v).1.sources sid).isSome
      = (lookupSource m.sources sid).isSome := by
  unfold updateLayer
  cases h : lookupSource m.sources d.sourceId with
  | none => rfl
  | some fc0 => simp [lookupSource_setDataList_isSome]

theorem updateLayer_events (w : WorldState) (m : Surface) (d : LayerDescriptor)
    (v : ViewContext) :
    (updateLayer w m d v).2
      = if (lookupSource m.sources d.sourceId).isSome
        then [SurfEvent.setData d.sourceId (d.dataSelector w)] else [] := by
  unfold updateLayer
  cases h : lookupSource m.sources d.sourceId <;> simp

theorem updatePass_events (w : WorldState) (v : ViewContext) :
    ∀ (ds : List LayerDescriptor) (m : Surface),
    (updatePass w v ds m).2 = ds.filterMap (fun d =>
      if (lookupSource m.sources d.sourceId).isSome
      then some (SurfEvent.setData d.sourceId (d.dataSelector w)) else none) := by
  intro ds
  induction ds with
  | nil => intro m; rfl
  | cons d ds ih =>
    intro m
    have hcongr : ∀ m2 : Surface,
        (∀ sid, (lookupSource m2.sources sid).isSome = (lookupSource m.sources sid).isSome) →
        ds.filterMap (fun d2 =>
          if (lookupSource m2.sources d2.sourceId).isSome
          then some (SurfEvent.setData d2.sourceId (d2.dataSelector w)) else none)
        = ds.filterMap (fun d2 =>
          if (lookupSource m.sources d2.sourceId).isSome
          then some (SurfEvent.setData d2.sourceId (d2.dataSelector w)) else none) := by
      intro m2 hm2
      exact List.filterMap_congr (fun d2 _ => by rw [hm2])
    show ((updateLayer w m d v).2 ++ (updatePass w v ds (updateLayer w m d v).1).2) = _
    rw [ih, updateLayer_events, hcongr _ (updateLayer_lookup_isSome w m d v),
      List.filterMap_cons]
    cases h : (lookupSource m.sources d.sourceId).isSome <;> simp [h]

theorem updatePass_lookup_isSome (w : WorldState) (v : ViewContext) :
    ∀ (ds : List LayerDescriptor) (m : Surface) (sid : String),
    (lookupSource (updatePass w v ds m).1.sources sid).isSome
      = (lookupSource m.sources sid).isSome := by
  intro ds
  induction ds with
  | nil => intro m sid; rfl
  | cons d ds ih =>
    intro m sid
    show (lookupSource (updatePass w v ds (updateLayer w m d v).1).1.sources sid).isSome = _
    rw [ih, updateLayer_lookup_isSome]

theorem updatePass_layers (w : WorldState) (v : ViewContext) :
    ∀ (ds : List LayerDescriptor) (m : Surface),
    (updatePass w v ds m).1.layers = m.layers := by
  intro ds
  induction ds with
  | nil => intro m; rfl
  | cons d ds ih =>
    intro m
    show (updatePass w v ds (updateLayer w m d v).1).1.layers = _
    rw [ih, updateLayer_layers]

theorem ensure_initializedSources (e : RenderEngine) (m : Surface) (d : LayerDescriptor) :
    (ensureSourceAndLayer e m d).1.initializedSources
      = if d.sourceId ∈ e.initializedSources then e.initializedSources
        else d.sourceId :: e.initializedSources := by
  unfold ensureSourceAndLayer
  by_cases hs : d.sourceId ∈ e.initializedSources <;>
    by_cases hl : d.layerId ∈ e.initializedLayers <;> simp [hs, hl]

theorem ensure_initializedLayers (e : RenderEngine) (m : Surface) (d : LayerDescriptor) :
    (ensureSourceAndLayer e m d).1.initializedLayers
      = if d.layerId ∈ e.initializedLayers then e.initializedLayers
        else d.layerId :: e.initializedLayers := by
  unfold ensureSourceAndLayer
  by_cases hs : d.sourceId ∈ e.initializedSources <;>
    by_cases hl : d.layerId ∈ e.initializedLayers <;> simp [hs, hl]

theorem ensure_world (e : RenderEngine) (m : Surface) (d : LayerDescriptor) :
    (ensureSourceAndLayer e m d).1.world = e.world := by
  unfold ensureSourceAndLayer
  by_cases hs : d.sourceId ∈ e.initializedSources <;>
    by_cases hl : d.layerId ∈ e.initializedLayers <;> simp [hs, hl]

theorem ensure_layers (e : RenderEngine) (m : Surface) (d : LayerDescriptor) :
    (ensureSourceAndLayer e m d).1.layers = e.layers := by
  unfold ensureSourceAndLayer
  by_cases hs : d.sourceId ∈ e.initializedSources <;>
    by_cases hl : d.layerId ∈ e.initializedLayers <;> simp [hs, hl]

theorem ensure_events (e : RenderEngine) (m : Surface) (d : LayerDescriptor) :
    (ensureSourceAndLayer e m d).2.2
      = (if d.sourceId ∈ e.initializedSources then [] else [SurfEvent.addSource d.sourceId])
        ++ (if d.layerId ∈ e.initializedLayers then [] else [SurfEvent.addLayer d.layerId]) := by
  unfold ensureSourceAndLayer
  by_cases hs : d.sourceId ∈ e.initializedSources <;>
    by_cases hl : d.layerId ∈ e.initializedLayers <;> simp [hs, hl]

theorem count_addSource_updateLayer (w : WorldState) (m : Surface) (d : LayerDescriptor)
    (v : ViewContext) (sid : String) :
    (updateLayer w m d v).2.count (SurfEvent.addSource sid) = 0 := by
  rw [updateLayer_events]
  cases h : (lookupSource m.sources d.sourceId).isSome <;> simp [List.count_singleton]

theorem count_addLayer_updateLayer (w : WorldState) (m : Surface) (d : LayerDescriptor)
    (v : ViewContext) (lid : String) :
    (updateLayer w m d v).2.count (SurfEvent.addLayer lid) = 0 := by
  rw [updateLayer_events]
  cases h : (lookupSource m.sources d.sourceId).isSome <;> simp [List.count_singleton]

theorem count_addSource_updatePass (w : WorldState) (v : ViewContext)
    (ds : List LayerDescriptor) (m : Surface) (sid : String) :
    (updatePass w v ds m).2.count (SurfEvent.addSource sid) = 0 := by
  rw [updatePass_events]
  rw [List.count_eq_zero]
  intro hmem
  rcases List.mem_filterMap.mp hmem with ⟨d2, _, hd2⟩
  by_cases h : (lookupSource m.sources d2.sourceId).isSome = true <;> simp [h] at hd2

theorem count_addLayer_updatePass (w : WorldState) (v : ViewContext)
    (ds : List LayerDescriptor) (m : Surface) (lid : String) :
    (updatePass w v ds m).2.count (SurfEvent.addLayer lid) = 0 := by
  rw [updatePass_events]
  rw [List.count_eq_zero]
  intro hmem
  rcases List.mem_filterMap.mp hmem with ⟨d2, _, hd2⟩
  by_cases h : (lookupSource m.sources d2.sourceId).isSome = true <;> simp [h] at hd2

theorem runCmd_count_addSource (e : RenderEngine) (m : Surface) (c : EngineCmd) (sid : String) :
    (runCmd e m c).2.2.count (SurfEvent.addSource sid)
      + (if sid ∈ (runCmd e m c).1.initializedSources then 0 else 1)
      ≤ (if sid ∈ e.initializedSources then 0 else 1) := by
  cases c with
  | register d =>
    simp only [runCmd]
    unfold RenderEngine.registerLayer
    simp only [List.count_append, ensure_events, count_addSource_updateLayer,
      ensure_initializedSources]
    by_cases hs : d.sourceId ∈ e.initializedSources
    · simp only [hs, if_true]
      by_cases hl : d.layerId ∈ e.initializedLayers <;> simp [hl, List.count_singleton]
    · simp only [hs, if_false]
      by_cases hsd : d.sourceId = sid
      · subst hsd
        by_cases hl : d.layerId ∈ e.initializedLayers <;>
          simp [hl, hs, List.count_singleton]
      · have hds : ¬sid = d.sourceId := fun h => hsd h.symm
        by_cases hl : d.layerId ∈ e.initializedLayers <;>
          simp [hl, hsd, hds, List.count_singleton]
  | setWorld w => simp [runCmd, RenderEngine.setWorldState]
  | update v =>
    simp only [runCmd, RenderEngine.update, count_addSource_updatePass]
    simp
  | external m2 => simp [runCmd]

theorem runCmd_count_addLayer (e : RenderEngine) (m : Surface) (c : EngineCmd) (lid : String) :
    (runCmd e m c).2.2.count (SurfEvent.addLayer lid)
      + (if lid ∈ (runCmd e m c).1.initializedLayers then 0 else 1)
      ≤ (if lid ∈ e.initializedLayers then 0 else 1) := by
  cases c with
  | register d =>
    simp only [runCmd]
    unfold RenderEngine.registerLayer
    simp only [List.count_append, ensure_events, count_addLayer_updateLayer,
      ensure_initializedLayers]
    by_cases hl : d.layerId ∈ e.initializedLayers
    · simp only [hl, if_true]
      by_cases hs : d.sourceId ∈ e.initializedSources <;> simp [hs, List.count_singleton]
    · simp only [hl, if_false]
      by_cases hld : d.layerId = lid
      · subst hld
        by_cases hs : d.sourceId ∈ e.initializedSources <;>
          simp [hs, hl, List.count_singleton]
      · have hdl : ¬lid = d.layerId := fun h => hld h.symm
        by_cases hs : d.sourceId ∈ e.initializedSources <;>
          simp [hs, hld, hdl, List.count_singleton]
  | setWorld w => simp [runCmd, RenderEngine.setWorldState]
  | update v =>
    simp only [runCmd, RenderEngine.update, count_addLayer_updatePass]
    simp
  | external m2 => simp [runCmd]

theorem runCmds_count_addSource (cmds : List EngineCmd) :
    ∀ (e : RenderEngine) (m : Surface) (sid : String),
    (runCmds e m cmds).2.2.count (SurfEvent.addSource sid)
      + (if sid ∈ (runCmds e m cmds).1.initializedSources then 0 else 1)
      ≤ (if sid ∈ e.initializedSources then 0 else 1) := by
  induction cmds with
  | nil => intro e m sid; simp [runCmds]
  | cons c cs ih =>
    intro e m sid
    have h1 := runCmd_count_addSource e m c sid
    have h2 := ih (runCmd e m c).1 (runCmd e m c).2.1 sid
    simp only [runCmds, List.count_append]
    omega

theorem runCmds_count_addLayer (cmds : List EngineCmd) :
    ∀ (e : RenderEngine) (m : Surface) (lid : String),
    (runCmds e m cmds).2.2.count (SurfEvent.addLayer lid)
      + (if lid ∈ (runCmds e m cmds).1.initializedLayers then 0 else 1)
      ≤ (if lid ∈ e.initializedLayers then 0 else 1) := by
  induction cmds with
  | nil => intro e m lid; simp [runCmds]
  | cons c cs ih =>
    intro e m lid
    have h1 := runCmd_count_addLayer e m c lid
    have h2 := ih (runCmd e m c).1 (runCmd e m c).2.1 lid
    simp only [runCmds, List.count_append]
    omega

theorem ensure_surface_sources (e : RenderEngine) (m : Surface) (d : LayerDescriptor) :
    (ensureSourceAndLayer e m d).2.1.sources
      = if d.sourceId ∈ e.initializedSources then m.sources
        else m.sources ++ [(d.sourceId, emptyFeatureCollection)] := by
  unfold ensureSourceAndLayer
  by_cases hs : d.sourceId ∈ e.initializedSources <;>
    by_cases hl : d.layerId ∈ e.initializedLayers <;>
      simp [hs, hl, Surface.addSource, Surface.addLayer]

theorem ensure_surface_layers (e : RenderEngine) (m : Surface) (d : LayerDescriptor) :
    (ensureSourceAndLayer e m d).2.1.layers
      = if d.layerId ∈ e.initializedLayers then m.layers
        else m.layers ++ [layerSpecFor d] := by
  unfold ensureSourceAndLayer
  by_cases hs : d.sourceId ∈ e.initializedSources <;>
    by_cases hl : d.layerId ∈ e.initializedLayers <;>
      simp [hs, hl, Surface.addSource, Surface.addLayer]

theorem updatePass_view (w : WorldState) (v v2 : ViewContext) :
    ∀ (ds : List LayerDescriptor) (m : Surface),
    updatePass w v ds m = updatePass w v2 ds m := by
  intro ds
  induction ds with
  | nil => intro m; rfl
  | cons d ds ih =>
    intro m
    show (let r := updateLayer w m d v; _) = (let r := updateLayer w m d v2; _)
    have hd : updateLayer w m d v = updateLayer w m d v2 := rfl
    simp only [updatePass]
    rw [hd, ih]

/-- Claim C1: for every command sequence against one freshly constructed
render engine, `addSource` is emitted at most once per source id and
`addLayer` at most once per layer id, while the data pushes keep
happening: every `update` call pushes for every registered descriptor
whose source is live on the surface, and a `registerLayer` call for a
never-seen source id always performs its immediate push (it has just
created the source). -/
theorem C1_creation_at_most_once_per_id :
    ∀ (w : WorldState) (m0 : Surface) (cmds : List EngineCmd) (sid lid : String),
    (runCmds (mkRenderEngine w) m0 cmds).2.2.count (SurfEvent.addSource sid) ≤ 1 ∧
    (runCmds (mkRenderEngine w) m0 cmds).2.2.count (SurfEvent.addLayer lid) ≤ 1 ∧
    (∀ (e : RenderEngine) (m : Surface) (v : ViewContext) (d : LayerDescriptor),
      d ∈ e.layers → (lookupSource m.sources d.sourceId).isSome = true →
      SurfEvent.setData d.sourceId (d.dataSelector e.world) ∈ (e.update m v).2) ∧
    (∀ (e : RenderEngine) (m : Surface) (d : LayerDescriptor),
      d.sourceId ∉ e.initializedSources →
      SurfEvent.setData d.sourceId (d.dataSelector e.world) ∈ (e.registerLayer m d).2.2) := by
  intro w m0 cmds sid lid
  refine ⟨?_, ?_, ?_, ?_⟩
  · have h := runCmds_count_addSource cmds (mkRenderEngine w) m0 sid
    have hb : (if sid ∈ (mkRenderEngine w).initializedSources then 0 else 1) = 1 := by
      simp [mkRenderEngine]
    rw [hb] at h
    omega
  · have h := runCmds_count_addLayer cmds (mkRenderEngine w) m0 lid
    have hb : (if lid ∈ (mkRenderEngine w).initializedLayers then 0 else 1) = 1 := by
      simp [mkRenderEngine]
    rw [hb] at h
    omega
  · intro e m v d hd hsome
    rw [RenderEngine.update, updatePass_events]
    exact List.mem_filterMap.mpr ⟨d, hd, by simp [hsome]⟩
  · intro e m d hs
    unfold RenderEngine.registerLayer
    apply List.mem_append_right
    have hsrc : (lookupSource
        (ensureSourceAndLayer { e with layers := e.layers ++ [d] } m d).2.1.sources
        d.sourceId).isSome = true := by
      rw [ensure_surface_sources]
      simp only [hs, if_false]
      exact lookupSource_append_self m.sources d.sourceId emptyFeatureCollection
    rw [updateLayer_events, ensure_world]
    simp [hsrc]

/-- Claim C2: `update` pushes, for every registered descriptor (with a
live source), the feature collection re-derived by its `dataSelector` from
the engine current world — the world last given to `setWorldState`, or
the constructor world; the pushes do not depend on the view zoom, and a
second `update` with unchanged world pushes the identical collections. -/
theorem C2_update_rederives_and_pushes :
    ∀ (e : RenderEngine) (m : Surface) (v v2 : ViewContext) (w2 : WorldState),
    e.update m v = e.update m v2 ∧
    ((e.update m v).2 = e.layers.filterMap (fun d =>
      if (lookupSource m.sources d.sourceId).isSome
      then some (SurfEvent.setData d.sourceId (d.dataSelector e.world)) else none)) ∧
    (((e.setWorldState w2).update m v).2 = e.layers.filterMap (fun d =>
      if (lookupSource m.sources d.sourceId).isSome
      then some (SurfEvent.setData d.sourceId (d.dataSelector w2)) else none)) ∧
    ((mkRenderEngine w2).world = w2) ∧
    ((e.update (e.update m v).1 v).2 = (e.update m v).2) := by
  intro e m v v2 w2
  refine ⟨?_, ?_, ?_, rfl, ?_⟩
  · rw [RenderEngine.update, RenderEngine.update, updatePass_view]
  · rw [RenderEngine.update, updatePass_events]
  · rw [RenderEngine.update, updatePass_events]; rfl
  · rw [RenderEngine.update, RenderEngine.update, updatePass_events, updatePass_events]
    exact List.filterMap_congr (fun d2 _ => by rw [updatePass_lookup_isSome])

/-- Claim C3: when the surface lacks the source of one registered
descriptor at update time, that descriptor push is skipped (no such
`setData` call is emitted and nothing creates the source), while every
other registered descriptor with a live source is still pushed; the
update pass is a total function, so no error is raised. -/
theorem C3_missing_source_skips_only_that_layer :
    ∀ (e : RenderEngine) (m : Surface) (v : ViewContext) (d : LayerDescriptor),
    d ∈ e.layers → lookupSource m.sources d.sourceId = none →
    (∀ fc, SurfEvent.setData d.sourceId fc ∉ (e.update m v).2) ∧
    lookupSource (e.update m v).1.sources d.sourceId = none ∧
    (∀ d2, d2 ∈ e.layers → (lookupSource m.sources d2.sourceId).isSome = true →
      SurfEvent.setData d2.sourceId (d2.dataSelector e.world) ∈ (e.update m v).2) := by
  intro e m v d _hd hnone
  refine ⟨?_, ?_, ?_⟩
  · intro fc hmem
    rw [RenderEngine.update, updatePass_events] at hmem
    rcases List.mem_filterMap.mp hmem with ⟨d3, _, hd3⟩
    by_cases h3 : (lookupSource m.sources d3.sourceId).isSome = true
    · simp only [h3, if_true, Option.some.injEq] at hd3
      have hsid : d3.sourceId = d.sourceId := by
        have := congrArg (fun ev => match ev with
          | SurfEvent.setData s _ => s
          | _ => "") hd3
        simpa using this
      rw [hsid, hnone] at h3
      simp at h3
    · simp only [Bool.not_eq_true] at h3
      simp [h3] at hd3
  · have h := updatePass_lookup_isSome e.world v e.layers m d.sourceId
    rw [hnone] at h
    rw [RenderEngine.update]
    cases h2 : lookupSource (updatePass e.world v e.layers m).1.sources d.sourceId with
    | none => rfl
    | some fc2 => rw [h2] at h; simp at h
  · intro d2 hd2 hsome
    rw [RenderEngine.update, updatePass_events]
    exact List.mem_filterMap.mpr ⟨d2, hd2, by simp [hsome]⟩

/-- Claim C5: after `registerLayer` returns for a descriptor with
never-seen ids, the surface holds both resources: a data source under the
descriptor source id, and a styled layer under the descriptor layer id
referencing that source — for point kind (a circle layer) and for polygon
kind (a fill layer) alike. -/
theorem C5_register_creates_source_and_layer :
    ∀ (e : RenderEngine) (m : Surface) (d : LayerDescriptor),
    d.sourceId ∉ e.initializedSources → d.layerId ∉ e.initializedLayers →
    (lookupSource (e.registerLayer m d).2.1.sources d.sourceId).isSome = true ∧
    layerSpecFor d ∈ (e.registerLayer m d).2.1.layers ∧
    (layerSpecFor d).id = d.layerId ∧
    (layerSpecFor d).source = d.sourceId ∧
    (layerSpecFor d).type = (match d.kind with | .point => "circle" | .polygon => "fill") := by
  intro e m d hs hl
  have hs0 : d.sourceId ∉
      ({ e with layers := e.layers ++ [d] } : RenderEngine).initializedSources := hs
  have hl0 : d.layerId ∉
      ({ e with layers := e.layers ++ [d] } : RenderEngine).initializedLayers := hl
  refine ⟨?_, ?_, ?_, ?_, ?_⟩
  · unfold RenderEngine.registerLayer
    rw [updateLayer_lookup_isSome, ensure_surface_sources]
    simp only [hs0, if_false]
    exact lookupSource_append_self m.sources d.sourceId emptyFeatureCollection
  · unfold RenderEngine.registerLayer
    rw [updateLayer_layers, ensure_surface_layers]
    simp only [hl0, if_false]
    exact List.mem_append_right _ (List.mem_singleton.mpr rfl)
  · cases hk : d.kind <;> simp [layerSpecFor, hk]
  · cases hk : d.kind <;> simp [layerSpecFor, hk]
  · cases hk : d.kind <;> simp [layerSpecFor, hk]

/-- A minimal concrete world used to instantiate the engine theorems. -/
def sampleWorld : WorldState := { drones := [], homeBase := none }

/-- A fresh drawing surface with no sources and no layers. -/
def emptySurface : Surface := { sources := [], layers := [] }

/-- A concrete engine state with two registered descriptors and both ids
already seen, used to instantiate the update theorems. -/
def engineC3 : RenderEngine :=
  { world := sampleWorld
    layers := [createDronesLayerDescriptor, createHomeBaseLayerDescriptor]
    initializedSources := ["drones-source", "home-base-source"]
    initializedLayers := ["drones-layer", "home-base-layer"] }

/-- A surface holding only the home base source: the drones source has
been torn down externally. -/
def surfaceC3 : Surface :=
  { sources := [("home-base-source", emptyFeatureCollection)], layers := [] }

theorem C1_witness :
    SurfEvent.setData "drones-source"
        (createDronesLayerDescriptor.dataSelector sampleWorld)
      ∈ ((mkRenderEngine sampleWorld).registerLayer emptySurface
          createDronesLayerDescriptor).2.2 :=
  (C1_creation_at_most_once_per_id sampleWorld emptySurface [] "s" "l").2.2.2
    (mkRenderEngine sampleWorld) emptySurface createDronesLayerDescriptor
    (by simp [mkRenderEngine])

theorem C3_witness :
    SurfEvent.setData "home-base-source"
        (createHomeBaseLayerDescriptor.dataSelector sampleWorld)
      ∈ (engineC3.update surfaceC3 ⟨11⟩).2 :=
  (C3_missing_source_skips_only_that_layer engineC3 surfaceC3 ⟨11⟩
      createDronesLayerDescriptor (List.mem_cons_self _ _) rfl).2.2
    createHomeBaseLayerDescriptor
    (List.mem_cons.mpr (Or.inr (List.mem_cons_self _ _)))
    rfl

theorem C5_witness :
    (lookupSource ((mkRenderEngine sampleWorld).registerLayer emptySurface
        createDronesLayerDescriptor).2.1.sources "drones-source").isSome = true ∧
    layerSpecFor createDronesLayerDescriptor
      ∈ ((mkRenderEngine sampleWorld).registerLayer emptySurface
          createDronesLayerDescriptor).2.1.layers :=
  ⟨(C5_register_creates_source_and_layer (mkRenderEngine sampleWorld) emptySurface
      createDronesLayerDescriptor (by simp [mkRenderEngine]) (by simp [mkRenderEngine])).1,
   (C5_register_creates_source_and_layer (mkRenderEngine sampleWorld) emptySurface
      createDronesLayerDescriptor (by simp [mkRenderEngine]) (by simp [mkRenderEngine])).2.1⟩

theorem fract_sub_fract (a b : ℚ) :
    Int.fract (Int.fract a - Int.fract b) = Int.fract (a - b) := by
  rw [Int.fract_eq_fract]
  exact ⟨⌊b⌋ - ⌊a⌋, by unfold Int.fract; push_cast; ring⟩

theorem assignFormationAux_map (L : ℚ) (n : ℕ) :
    ∀ (ds : List DroneEntity) (k : ℕ),
    (assignFormationAux L n k ds).map (fun d => d.pathParam)
      = (List.range' k ds.length).map (fun i => some (formationParam L n i)) := by
  intro ds
  induction ds with
  | nil => intro k; rfl
  | cons d ds ih =>
    intro k
    simp only [assignFormationAux, List.map_cons, List.length_cons, List.range'_succ]
    rw [ih (k + 1)]

theorem formationParam_injOn (L : ℚ) (n : ℕ) (hn : 1 ≤ n) :
    ∀ i j : ℕ, i < n → j < n → i ≠ j →
    formationParam L n i ≠ formationParam L n j := by
  intro i j hi hj hij heq
  rw [formationParam, formationParam, Int.fract_eq_fract] at heq
  rcases heq with ⟨z, hz⟩
  have hn0 : (n : ℚ) ≠ 0 := Nat.cast_ne_zero.mpr (by omega)
  have hnq : (0 : ℚ) < n := by
    have : (0 : ℕ) < n := by omega
    exact_mod_cast this
  have h1 : (i : ℚ) - j = z * n := by
    field_simp at hz
    linarith
  have hiq : (i : ℚ) < n := by exact_mod_cast hi
  have hjq : (j : ℚ) < n := by exact_mod_cast hj
  have hi0 : (0 : ℚ) ≤ i := by positivity
  have hj0 : (0 : ℚ) ≤ j := by positivity
  have hz1 : (z : ℚ) < 1 := by
    have hlt : (z : ℚ) * n < 1 * n := by rw [← h1]; linarith
    exact lt_of_mul_lt_mul_right (by linarith) (le_of_lt hnq)
  have hz2 : (-1 : ℚ) < z := by
    have hgt : (-1 : ℚ) * n < z * n := by rw [← h1]; linarith
    exact lt_of_mul_lt_mul_right (by linarith) (le_of_lt hnq)
  have hz0 : z = 0 := by
    have a1 : (-1 : ℤ) < z := by exact_mod_cast hz2
    have a2 : z < 1 := by exact_mod_cast hz1
    omega
  rw [hz0] at h1
  push_cast at h1
  have : (i : ℚ) = j := by linarith
  exact hij (by exact_mod_cast this)

theorem formationParam_cyclic (L : ℚ) (n : ℕ) (hn : 1 ≤ n) :
    ∀ i : ℕ, i < n →
    Int.fract (formationParam L n ((i + 1) % n) - formationParam L n i)
      = Int.fract (1 / (n : ℚ)) := by
  intro i hi
  have hn0 : (n : ℚ) ≠ 0 := Nat.cast_ne_zero.mpr (by omega)
  rw [formationParam, formationParam, fract_sub_fract]
  by_cases hin : i + 1 < n
  · rw [Nat.mod_eq_of_lt hin]
    congr 1
    push_cast
    field_simp
  · have hieq : i + 1 = n := by omega
    rw [hieq, Nat.mod_self]
    rw [Int.fract_eq_fract]
    refine ⟨-1, ?_⟩
    have hiq : (i : ℚ) = (n : ℚ) - 1 := by
      have h2 : ((i + 1 : ℕ) : ℚ) = n := by rw [hieq]
      push_cast at h2
      linarith
    push_cast
    rw [hiq]
    field_simp

/-- Claim C4 (spacing step of the Formation Simulation, modelled from the
spec): with `n ≥ 1` active drones and leader parameter `L`, the list of
assigned fractional parameters is exactly the indexed family
`(L + idx / n) mod 1` for `idx = 0 .. n-1`; the parameters are pairwise
distinct, and every cyclic consecutive difference equals `1/n` modulo 1. -/
theorem C4_formation_spacing :
    ∀ (L : ℚ) (ds : List DroneEntity), 1 ≤ ds.length →
    ((assignFormation L ds).map (fun d => d.pathParam)
        = (List.range ds.length).map (fun i => some (formationParam L ds.length i))) ∧
    (∀ i j : ℕ, i < ds.length → j < ds.length → i ≠ j →
        formationParam L ds.length i ≠ formationParam L ds.length j) ∧
    (∀ i : ℕ, i < ds.length →
        Int.fract (formationParam L ds.length ((i + 1) % ds.length)
            - formationParam L ds.length i)
          = Int.fract (1 / (ds.length : ℚ))) := by
  intro L ds hn
  refine ⟨?_, formationParam_injOn L ds.length hn, formationParam_cyclic L ds.length hn⟩
  rw [assignFormation, assignFormationAux_map, List.range_eq_range']

/-- A concrete drone value used to instantiate the formation theorem. -/
def sampleDrone : DroneEntity :=
  { id := "drone-0", position := kyivBase, side := .friendly, pathParam := some 0,
    battery := some 1, mode := .PATROL, offset := 0, exploration := some 0 }

theorem C4_witness :
    ((assignFormation 0 (List.replicate 4 sampleDrone)).map (fun d => d.pathParam)
        = [some 0, some (1/4), some (1/2), some (3/4)]) ∧
    formationParam 0 (List.replicate 4 sampleDrone).length 1
      ≠ formationParam 0 (List.replicate 4 sampleDrone).length 2 := by
  constructor
  · have h := (C4_formation_spacing 0 (List.replicate 4 sampleDrone) (by simp)).1
    rw [List.length_replicate] at h
    rw [h]
    have e0 : formationParam 0 4 0 = 0 := by
      unfold formationParam
      push_cast
      rw [show (0 : ℚ) + 0 / 4 = 0 by norm_num]
      exact Int.fract_zero
    have e1 : formationParam 0 4 1 = 1/4 := by
      unfold formationParam
      push_cast
      rw [show (0 : ℚ) + 1 / 4 = 1/4 by norm_num]
      exact Int.fract_eq_self.mpr (by norm_num)
    have e2 : formationParam 0 4 2 = 1/2 := by
      unfold formationParam
      push_cast
      rw [show (0 : ℚ) + 2 / 4 = 1/2 by norm_num]
      exact Int.fract_eq_self.mpr (by norm_num)
    have e3 : formationParam 0 4 3 = 3/4 := by
      unfold formationParam
      push_cast
      rw [show (0 : ℚ) + 3 / 4 = 3/4 by norm_num]
      exact Int.fract_eq_self.mpr (by norm_num)
    rw [show List.range 4 = [0, 1, 2, 3] from rfl]
    simp [e0, e1, e2, e3]
  · exact (C4_formation_spacing 0 (List.replicate 4 sampleDrone) (by simp)).2.1
      1 2 (by simp) (by simp) (by omega)

theorem droneFromDTO_fields (d : DroneDTO) (ent : DroneEntity)
    (h : droneFromDTO d = Except.ok ent) :
    ent.id = d.id ∧ ent.battery = d.battery ∧ ent.pathParam = d.path_param ∧
    ent.mode = mapModeRaw d.mode ∧ ent.exploration = none := by
  unfold droneFromDTO at h
  cases hp : d.position with
  | none => rw [hp] at h; exact absurd h (by simp)
  | some p =>
    rw [hp] at h
    injection h with h
    subst h
    exact ⟨rfl, rfl, rfl, rfl, rfl⟩

theorem mapM_droneFromDTO_ok :
    ∀ (l : List DroneDTO) (res : List DroneEntity),
    l.mapM droneFromDTO = Except.ok res →
    List.Forall₂ (fun d ent => droneFromDTO d = Except.ok ent) l res := by
  intro l
  induction l with
  | nil =>
    intro res h
    rw [List.mapM_nil] at h
    injection h with h
    subst h
    exact List.Forall₂.nil
  | cons d l ih =>
    intro res h
    rw [List.mapM_cons] at h
    cases hfd : droneFromDTO d with
    | error err =>
      rw [hfd] at h
      exact Except.noConfusion h
    | ok ent =>
      rw [hfd] at h
      cases hml : l.mapM droneFromDTO with
      | error err =>
        rw [hml] at h
        exact Except.noConfusion h
      | ok rest =>
        rw [hml] at h
        have h2 : (Except.ok (ent :: rest) : Except String (List DroneEntity))
            = Except.ok res := h
        injection h2 with h2
        subst h2
        exact List.Forall₂.cons hfd (ih rest hml)

theorem mapM_droneFromDTO_error :
    ∀ (l : List DroneDTO), (∃ d ∈ l, d.position = none) →
    ∃ err, l.mapM droneFromDTO = Except.error err := by
  intro l
  induction l with
  | nil => rintro ⟨d, hd, _⟩; exact absurd hd (List.not_mem_nil d)
  | cons d l ih =>
    rintro ⟨d2, hd2, hpos⟩
    rw [List.mapM_cons]
    rcases List.mem_cons.mp hd2 with heq | hmem
    · subst heq
      refine ⟨"TypeError: cannot read lng of undefined", ?_⟩
      have : droneFromDTO d2 = Except.error "TypeError: cannot read lng of undefined" := by
        unfold droneFromDTO
        rw [hpos]
      rw [this]
      rfl
    · cases hfd : droneFromDTO d with
      | error err => exact ⟨err, rfl⟩
      | ok ent =>
        rcases ih ⟨d2, hmem, hpos⟩ with ⟨err, herr⟩
        refine ⟨err, ?_⟩
        show (l.mapM droneFromDTO >>= fun bs => pure (ent :: bs)) = Except.error err
        rw [herr]
        rfl

/-- Claim C6 (code bug): ingestion of a backend snapshot carrying no
exploration value produces a drone entity whose exploration property is
absent (`none`, the JavaScript `undefined`), not the defaulted 0 that the
specification states — the object literal in `dtoToWorldState` simply
never assigns the field `DroneEntity` declares required. -/
theorem C6_exploration_left_undefined :
    (dtoToWorldState
        { drones := [{ id := "d1", side := .friendly, path_param := some (1/2),
                       battery := some 1, mode := some .PATROL,
                       position := some (30, 50) }]
          home_base := some { id := "base-1", position := some (36, 47) } }).toOption.map
        (fun w => w.drones.map (fun d => d.exploration))
      = some [none] := rfl

/-- Claim C7: the ingested mode equals the backend mode exactly for the
two modes the rendering layer supports for display (PATROL, RETURNING),
and every other backend mode value is collapsed to the single default
display mode PATROL. -/
theorem C7_unsupported_modes_collapse :
    ∀ (d : DroneDTO) (ent : DroneEntity), droneFromDTO d = Except.ok ent →
    (d.mode = some .PATROL → ent.mode = .PATROL) ∧
    (d.mode = some .RETURNING → ent.mode = .RETURNING) ∧
    (∀ bm : BackendMode, d.mode = some bm →
      bm ≠ .PATROL → bm ≠ .RETURNING → ent.mode = .PATROL) := by
  intro d ent hok
  have hmode : ent.mode = mapModeRaw d.mode := (droneFromDTO_fields d ent hok).2.2.2.1
  refine ⟨?_, ?_, ?_⟩
  · intro h; rw [hmode, h]; rfl
  · intro h; rw [hmode, h]; rfl
  · intro bm h h1 h2
    rw [hmode, h]
    cases bm with
    | PATROL => exact absurd rfl h1
    | RETURNING => exact absurd rfl h2
    | IDLE_AT_BASE => rfl
    | TRANSIT_TO_AREA => rfl
    | CHARGING => rfl
    | LOST => rfl

/-- A concrete drone DTO with an unsupported backend mode. -/
def droneDTOC7 : DroneDTO :=
  { id := "d7", side := .enemy, path_param := some 0, battery := some 1,
    mode := some .CHARGING, position := some (1, 2) }

/-- The entity `droneFromDTO` builds for `droneDTOC7`. -/
def entC7 : DroneEntity :=
  { id := "d7", side := .enemy, pathParam := some 0, battery := some 1,
    mode := .PATROL, position := (1, 2), offset := 0, exploration := none }

theorem C7_witness : entC7.mode = DroneMode.PATROL :=
  (C7_unsupported_modes_collapse droneDTOC7 entC7 rfl).2.2 .CHARGING rfl
    (by decide) (by decide)

/-- Claim C8 counterexample: a snapshot whose single drone DTO lacks its
`path_param`, `battery` and `mode` fields is not rejected or skipped by
the ingestion step — the partially-built entity (absent battery and path
parameter) lands in the resulting world state. -/
theorem C8_counterexample :
    (dtoToWorldState
        { drones := [{ id := "d2", side := .enemy, path_param := none,
                       battery := none, mode := none, position := some (10, 20) }]
          home_base := some { id := "b", position := some (0, 0) } }).toOption.map
        (fun w => w.drones.map (fun d => (d.id, d.battery, d.pathParam)))
      = some [("d2", none, none)] := rfl

/-- Claim C8 (amended): the ingestion step performs no per-entity
validation.  Whenever ingestion succeeds, every drone DTO is mapped — none
is skipped (lengths agree) — with absent scalar fields propagated as
absent into the entity (mode defaulting to PATROL, exploration never set);
a drone DTO whose `position` object is missing instead makes the whole
ingestion throw, aborting the entire snapshot rather than skipping the one
entity. -/
theorem C8_no_validation_amended :
    (∀ (dto : WorldStateDTO) (w : WorldState), dtoToWorldState dto = Except.ok w →
      w.drones.length = dto.drones.length ∧
      List.Forall₂ (fun (d : DroneDTO) (ent : DroneEntity) =>
        ent.id = d.id ∧ ent.battery = d.battery ∧ ent.pathParam = d.path_param ∧
        ent.mode = mapModeRaw d.mode ∧ ent.exploration = none)
        dto.drones w.drones) ∧
    (∀ (dto : WorldStateDTO) (d : DroneDTO), d ∈ dto.drones → d.position = none →
      ∃ err, dtoToWorldState dto = Except.error err) := by
  constructor
  · intro dto w hok
    unfold dtoToWorldState at hok
    cases hm : dto.drones.mapM droneFromDTO with
    | error err =>
      simp only [hm] at hok
      exact Except.noConfusion hok
    | ok drones0 =>
      cases hb : dto.home_base with
      | none =>
        simp only [hm, hb] at hok
        exact Except.noConfusion hok
      | some hbd =>
        cases hp : hbd.position with
        | none =>
          simp only [hm, hb, hp] at hok
          exact Except.noConfusion hok
        | some p =>
          simp only [hm, hb, hp, Except.ok.injEq] at hok
          subst hok
          have hfa := mapM_droneFromDTO_ok dto.drones drones0 hm
          constructor
          · exact hfa.length_eq.symm
          · exact hfa.imp (fun d2 ent2 hde => droneFromDTO_fields d2 ent2 hde)
  · intro dto d hd hpos
    rcases mapM_droneFromDTO_error dto.drones ⟨d, hd, hpos⟩ with ⟨err, herr⟩
    refine ⟨err, ?_⟩
    unfold dtoToWorldState
    rw [herr]

/-- A well-formed snapshot with one complete drone DTO. -/
def dtoC8b : WorldStateDTO :=
  { drones := [{ id := "d3", side := .friendly, path_param := some 0,
                 battery := some (9/10), mode := some .RETURNING,
                 position := some (5, 6) }]
    home_base := some { id := "b", position := some (0, 0) } }

/-- The world state ingestion builds from `dtoC8b`. -/
def worldC8b : WorldState :=
  { drones := [{ id := "d3", side := .friendly, pathParam := some 0,
                 battery := some (9/10), mode := .RETURNING, position := (5, 6),
                 offset := 0, exploration := none }]
    homeBase := some { id := "b", position := (0, 0), rangeKm := none } }

/-- A snapshot whose single drone DTO has no position object. -/
def dtoC8c : WorldStateDTO :=
  { drones := [{ id := "d4", side := .enemy, path_param := none, battery := none,
                 mode := none, position := none }]
    home_base := some { id := "b", position := some (0, 0) } }

theorem C8_witness :
    (List.Forall₂ (fun (d : DroneDTO) (ent : DroneEntity) =>
        ent.id = d.id ∧ ent.battery = d.battery ∧ ent.pathParam = d.path_param ∧
        ent.mode = mapModeRaw d.mode ∧ ent.exploration = none)
      dtoC8b.drones worldC8b.drones) ∧
    (∃ err, dtoToWorldState dtoC8c = Except.error err) :=
  ⟨(C8_no_validation_amended.1 dtoC8b worldC8b rfl).2,
   C8_no_validation_amended.2 dtoC8c _ (List.mem_cons_self _ _) rfl⟩

/-- Claim C9: every world-state value the core produces carries a home
base with identity and position: the initial world built before any
backend data arrives carries the fixed base `base-1` at the Kyiv demo
coordinate independently of the random drone offsets, and every
successfully ingested world carries the home base copied from the
snapshot. -/
theorem C9_home_base_always_present :
    (∀ rand : ℕ → ℚ, ∃ hb, (createInitialWorldState rand).homeBase = some hb ∧
        hb.id = "base-1" ∧ hb.position = kyivBase ∧ hb.rangeKm = some 10) ∧
    (∀ (dto : WorldStateDTO) (w : WorldState), dtoToWorldState dto = Except.ok w →
        ∃ hb hbdto p, w.homeBase = some hb ∧ dto.home_base = some hbdto ∧
          hbdto.position = some p ∧ hb.id = hbdto.id ∧ hb.position = p) := by
  constructor
  · intro rand
    exact ⟨_, rfl, rfl, rfl, rfl⟩
  · intro dto w hok
    unfold dtoToWorldState at hok
    cases hm : dto.drones.mapM droneFromDTO with
    | error err =>
      simp only [hm] at hok
      exact Except.noConfusion hok
    | ok drones0 =>
      cases hb : dto.home_base with
      | none =>
        simp only [hm, hb] at hok
        exact Except.noConfusion hok
      | some hbd =>
        cases hp : hbd.position with
        | none =>
          simp only [hm, hb, hp] at hok
          exact Except.noConfusion hok
        | some p =>
          simp only [hm, hb, hp, Except.ok.injEq] at hok
          subst hok
          exact ⟨_, hbd, p, rfl, rfl, hp, rfl, rfl⟩

/-- A concrete well-formed snapshot for the home-base theorem. -/
def dtoC9 : WorldStateDTO :=
  { drones := []
    home_base := some { id := "base-9", position := some (7, 8) } }

/-- The world ingestion builds from `dtoC9`. -/
def worldC9 : WorldState :=
  { drones := []
    homeBase := some { id := "base-9", position := (7, 8), rangeKm := none } }

theorem C9_witness :
    (∃ hb, (createInitialWorldState (fun _ => 0)).homeBase = some hb ∧
        hb.id = "base-1" ∧ hb.position = kyivBase ∧ hb.rangeKm = some 10) ∧
    (∃ hb hbdto p, worldC9.homeBase = some hb ∧ dtoC9.home_base = some hbdto ∧
        hbdto.position = some p ∧ hb.id = hbdto.id ∧ hb.position = p) :=
  ⟨C9_home_base_always_present.1 (fun _ => 0),
   C9_home_base_always_present.2 dtoC9 worldC9 rfl⟩

/-- Claim C10: the range-circle selector is a total function of world
state: without a home base it returns the empty feature collection, and
with one it returns exactly one circle feature centred on the base
position with radius `rangeKm`, defaulting to 10 kilometres when
`rangeKm` is absent, at 128 steps. -/
theorem C10_range_circle_selector :
    ∀ (circleFn : LngLat → ℚ → ℕ → Feature) (world : WorldState),
    (world.homeBase = none →
      (createRangeCircleLayerDescriptor circleFn).dataSelector world
        = emptyFeatureCollection) ∧
    (∀ hb, world.homeBase = some hb →
      ((createRangeCircleLayerDescriptor circleFn).dataSelector world).features
        = [circleFn hb.position (hb.rangeKm.getD 10) 128]) ∧
    (∀ hb, world.homeBase = some hb → hb.rangeKm = none →
      ((createRangeCircleLayerDescriptor circleFn).dataSelector world).features
        = [circleFn hb.position 10 128]) := by
  intro circleFn world
  refine ⟨?_, ?_, ?_⟩
  · intro h
    simp [createRangeCircleLayerDescriptor, h, emptyFeatureCollection]
  · intro hb h
    simp [createRangeCircleLayerDescriptor, h]
  · intro hb h hr
    simp [createRangeCircleLayerDescriptor, h, hr]

/-- A concrete stand-in for the external turf circle builder. -/
def circleFnC10 : LngLat → ℚ → ℕ → Feature :=
  fun c _r _steps => { properties := [], geometry := .polygon [c] }

/-- A world with a home base that has no configured range. -/
def worldC10 : WorldState :=
  { drones := []
    homeBase := some { id := "base-1", position := (36, 47), rangeKm := none } }

theorem C10_witness :
    ((createRangeCircleLayerDescriptor circleFnC10).dataSelector sampleWorld
      = emptyFeatureCollection) ∧
    ((createRangeCircleLayerDescriptor circleFnC10).dataSelector worldC10).features
      = [circleFnC10 (36, 47) 10 128] :=
  ⟨(C10_range_circle_selector circleFnC10 sampleWorld).1 rfl,
   (C10_range_circle_selector circleFnC10 worldC10).2.2
     { id := "base-1", position := (36, 47), rangeKm := none } rfl rfl⟩

end HackFrontend
